import Mathlib

/-!
Shallow embedding of the kavia-movie-hub Flask backend.

The embedded code:
  * src/flask_backend/app/routes/movies.py — the movies list/create handlers
    (MoviesList.get and MoviesList.post, including the local _insert helper
    and the photo_url fallback retry);
  * src/flask_backend/app/services/supabase_client.py — _create_client and
    the lazily-initialized singleton get_supabase.

Modelling conventions:
  * a JSON payload (a Python dict deserialized by marshmallow) is an
    association list of string keys and Values; key lookup takes the first
    match, mirroring dict semantics on the unique-key dicts that occur here;
  * the remote database is a parameter: an insert request is a function from
    the inserted payload to the outcome of execute() (an exception, or a
    response whose data attribute is absent/None or a list of rows); a fetch
    is indexed by call number so that the number of fetch attempts is
    observable;
  * blp.abort(code, message) raises a werkzeug HTTPException that the
    surrounding except-Exception blocks of the handler catch like any other
    exception; flask_smorest's abort stores the message keyword in the
    exception's data attribute, so str() of that exception is the werkzeug
    default text for the status code, not the message — this textual form is
    what the photo_url retry heuristic inspects when the caught exception
    came from an abort;
  * Python str.strip() and str.lower() are modelled character by character
    (stripStr, lowerStr); they agree with Python on the ASCII strings
    relevant here.
-/

namespace MovieHub

/-- Does the needle match at the head of the haystack (character lists)? -/
def headMatches : List Char → List Char → Bool
  | [], _ => true
  | _ :: _, [] => false
  | c :: cs, d :: ds => c = d && headMatches cs ds

/-- Does the needle occur as a contiguous run anywhere in the haystack? -/
def subOccurs (needle : List Char) : List Char → Bool
  | [] => needle.isEmpty
  | c :: rest => headMatches needle (c :: rest) || subOccurs needle rest

/-- Python substring test: needle in hay. -/
def strHasSub (hay needle : String) : Bool :=
  subOccurs needle.data hay.data

/-- Python str.lower(), character by character; agrees with it on the ASCII
alphabet, which is all the lowercased error texts here use. -/
def lowerStr (s : String) : String :=
  String.mk (s.data.map Char.toLower)

/-- Drop leading whitespace characters. -/
def dropLeadingWs : List Char → List Char
  | [] => []
  | c :: rest => if c.isWhitespace then dropLeadingWs rest else c :: rest

/-- Python str.strip() with no argument: surrounding whitespace removed from
both ends. -/
def stripStr (s : String) : String :=
  String.mk (((dropLeadingWs s.data).reverse |> dropLeadingWs).reverse)

/-- JSON-ish values occurring in request payloads and rows: null, text, or a
number. Numbers stand in for every non-null non-text Python value, which is
all the photo_url type check distinguishes. -/
inductive Value where
  | vNull
  | vStr (s : String)
  | vInt (n : Int)
  deriving DecidableEq, Repr

/-- A deserialized JSON object (Python dict) as an association list. -/
abbrev Payload := List (String × Value)

/-- dict.get: the first binding of the key, if any. -/
def Payload.get : Payload → String → Option Value
  | [], _ => none
  | (k', v) :: rest, k => if k' = k then some v else Payload.get rest k

/-- Python membership test: key in dict. -/
def Payload.hasKey (p : Payload) (k : String) : Bool :=
  (Payload.get p k).isSome

/-- The dict comprehension building a copy of the payload without one key:
all other bindings pass through unchanged, in order. -/
def Payload.removeKey (p : Payload) (k : String) : Payload :=
  p.filter (fun kv => kv.1 ≠ k)

/-- A row returned from storage is itself a JSON object. -/
abbrev Row := Payload

/-- Outcome of one supabase execute() call: either the call raised an
exception with the given textual message, or it returned a response whose
data attribute is getattr(res, "data", None) — absent/None or a row list. -/
inductive DbResp where
  | raise (msg : String)
  | result (data : Option (List Row))
  deriving DecidableEq, Repr

/-- Outcome of the get_supabase() call made by a request handler: the handle,
or the RuntimeError message the handler turns into a 500 response. -/
inductive GatewayOutcome where
  | ok
  | fail (msg : String)
  deriving DecidableEq, Repr

/-- str() of the HTTPException raised by blp.abort(500, message=...):
flask_smorest's abort stores the message keyword in the exception's data
attribute, so the textual form is the werkzeug default for status 500. -/
def abort500Text : String :=
  "500 Internal Server Error: The server encountered an internal error and was unable to complete your request. Either the server is overloaded or there is an error in the application."

/-- An exception propagating out of the _insert helper: either the database
execute() raised, or _insert itself called blp.abort (status 500 here). -/
inductive Exc where
  | dbRaise (msg : String)
  | httpAbort (code : Nat) (message : String)
  deriving DecidableEq, Repr

/-- The textual message str(exc) inspected by the retry heuristic. -/
def Exc.text : Exc → String
  | .dbRaise msg => msg
  | .httpAbort _ _ => abort500Text

/-- Outcome of a POST /api/movies request as the client sees it:
a 201 with the created row, a 400 abort, or a 500 abort. -/
inductive CreateResult where
  | created (row : Row)
  | clientError (message : String)
  | serverError (message : String)
  deriving DecidableEq, Repr

/-- Observable side effects of one POST handler run: whether get_supabase was
called, and the payloads of the insert attempts in order. -/
structure CreateTrace where
  handleRequested : Bool
  insertAttempts : List Payload
  deriving DecidableEq, Repr

/-- The expression (new_movie.get("title") or "") of movies.py line 105:
an absent, null or empty title collapses to the empty string. A non-text
title cannot reach the handler through the marshmallow schema. -/
def titleOrEmpty (p : Payload) : String :=
  match Payload.get p "title" with
  | some (Value.vStr s) => s
  | _ => ""

/-- The check of movies.py line 116: photo_url present, not None, and not a
string. A null or absent photo_url passes (dict.get returns None for both). -/
def photoUrlInvalid (p : Payload) : Bool :=
  match Payload.get p "photo_url" with
  | some (Value.vInt _) => true
  | _ => false

/-- The retry condition of movies.py lines 167-171: any of the five
substrings occurs in the lowercased error text. -/
def matchesColumnHeuristic (errText : String) : Bool :=
  strHasSub (lowerStr errText) "column"
    || strHasSub (lowerStr errText) "unknown"
    || strHasSub (lowerStr errText) "invalid input"
    || strHasSub (lowerStr errText) "does not exist"
    || strHasSub (lowerStr errText) "undefined"

/-- The _insert helper of movies.py lines 138-146: run the insert; a raised
exception propagates; an absent/None or empty data attribute becomes a 500
abort (itself an exception to the caller); otherwise return the first row. -/
def insertStep (db : Payload → DbResp) (payload : Payload) : Except Exc Row :=
  match db payload with
  | .raise msg => .error (.dbRaise msg)
  | .result none => .error (.httpAbort 500 "Insert failed: no data returned from Supabase")
  | .result (some []) => .error (.httpAbort 500 "Insert failed: no data returned from Supabase")
  | .result (some (row :: _)) => .ok row

/-- MoviesList.post of movies.py lines 89-186: validate title and photo_url,
obtain the handle, attempt the insert, and on any exception out of _insert
(database raise or the no-data abort) run the photo_url fallback retry when
its condition holds, else abort 500. -/
def createMovie (gw : GatewayOutcome) (db : Payload → DbResp) (newMovie : Payload) :
    CreateResult × CreateTrace :=
  if stripStr (titleOrEmpty newMovie) = "" then
    (.clientError "Field 'title' is required and cannot be empty.",
      ⟨false, []⟩)
  else if photoUrlInvalid newMovie = true then
    (.clientError "Field 'photo_url' must be a string if provided.",
      ⟨false, []⟩)
  else
    match gw with
    | .fail msg => (.serverError msg, ⟨true, []⟩)
    | .ok =>
      match insertStep db newMovie with
      | .ok row => (.created row, ⟨true, [newMovie]⟩)
      | .error exc =>
        if newMovie.hasKey "photo_url" && matchesColumnHeuristic exc.text then
          let safePayload := newMovie.removeKey "photo_url"
          match insertStep db safePayload with
          | .ok row => (.created row, ⟨true, [newMovie, safePayload]⟩)
          | .error _ =>
            (.serverError "Failed to create movie", ⟨true, [newMovie, safePayload]⟩)
        else
          (.serverError "Failed to create movie", ⟨true, [newMovie]⟩)

/-- Outcome of a GET /api/movies request: the row list, or a 500 abort. -/
inductive ListResult where
  | rows (data : List Row)
  | serverError (message : String)
  deriving DecidableEq, Repr

/-- MoviesList.get of movies.py lines 40-76, paired with the number of
fetch attempts made. The fetch database is indexed by call number so the
attempt count is meaningful; the handler only ever consults call 0. -/
def listMovies (gw : GatewayOutcome) (fdb : Nat → DbResp) : ListResult × Nat :=
  match gw with
  | .fail msg => (.serverError msg, 0)
  | .ok =>
    match fdb 0 with
    | .raise _ => (.serverError "Failed to fetch movies", 1)
    | .result none => (.rows [], 1)
    | .result (some data) => (.rows data, 1)

/-- An opaque Supabase client handle; distinct numbers model distinct
constructed instances. -/
abbrev Client := Nat

/-- The two environment values read by _create_client: none models an unset
variable, some of the empty string a set-but-empty one. -/
structure Config where
  url : Option String
  key : Option String
  deriving DecidableEq, Repr

/-- Python falsiness of os.getenv's result: None or the empty string. -/
def falsyStr : Option String → Bool
  | none => true
  | some s => s == ""

/-- What the underlying create_client(url, key) constructor does when
invoked: return a handle, or raise with the given message. -/
inductive CreateClientOutcome where
  | ok (c : Client)
  | raise (msg : String)
  deriving DecidableEq, Repr

/-- Outcome of _create_client / get_supabase as the caller sees it: the
handle, or a RuntimeError tagged by which of the two raise sites produced
it (missing configuration vs failed construction), with its message. -/
inductive ClientResult where
  | ok (c : Client)
  | configError (msg : String)
  | initError (msg : String)
  deriving DecidableEq, Repr

/-- The missing list built by supabase_client.py lines 48-52: URL first,
then service key, each included exactly when its value is falsy. -/
def missingKeys (cfg : Config) : List String :=
  (if falsyStr cfg.url then ["SUPABASE_URL"] else [])
    ++ (if falsyStr cfg.key then ["SUPABASE_SERVICE_KEY"] else [])

/-- The RuntimeError message of supabase_client.py lines 57-60; it is built
from the names of the missing variables only, never from their values. -/
def configErrorMessage (missing : List String) : String :=
  "Missing required Supabase configuration: " ++ String.intercalate ", " missing
    ++ ". Ensure these are set on the server environment (not exposed to the frontend)."

/-- The _create_client function of supabase_client.py lines 32-69, paired
with whether the underlying create_client constructor was invoked. -/
def createClientFn (cfg : Config) (construct : CreateClientOutcome) :
    ClientResult × Bool :=
  if falsyStr cfg.url || falsyStr cfg.key then
    (.configError (configErrorMessage (missingKeys cfg)), false)
  else
    match construct with
    | .ok c => (.ok c, true)
    | .raise _ => (.initError "Failed to initialize Supabase client", true)

/-- get_supabase of supabase_client.py lines 73-90 as a transition on the
module-level _client state: if the client exists return it untouched,
otherwise run _create_client; a raise leaves _client unassigned. The third
component records whether the constructor was invoked during this call. -/
def get_supabase (state : Option Client) (cfg : Config)
    (construct : CreateClientOutcome) : ClientResult × Option Client × Bool :=
  match state with
  | some c => (.ok c, some c, false)
  | none =>
    match createClientFn cfg construct with
    | (.ok c, invoked) => (.ok c, some c, invoked)
    | (.configError m, invoked) => (.configError m, none, invoked)
    | (.initError m, invoked) => (.initError m, none, invoked)

/-- A sequence of get_supabase calls threading the _client state, each call
with its own environment reading and constructor behaviour; returns each
call's result paired with its constructor-invoked flag, and the final
state. -/
def runGetSupabase : Option Client → List (Config × CreateClientOutcome) →
    List (ClientResult × Bool) × Option Client
  | s, [] => ([], s)
  | s, (cfg, con) :: rest =>
    let out := get_supabase s cfg con
    let tail := runGetSupabase out.2.1 rest
    ((out.1, out.2.2) :: tail.1, tail.2)

/-- One unfolding step of removeKey on a cons cell. -/
theorem Payload.removeKey_cons (a : String) (b : Value) (rest : Payload) (k : String) :
    Payload.removeKey ((a, b) :: rest) k =
      if a = k then Payload.removeKey rest k else (a, b) :: Payload.removeKey rest k := by
  by_cases hk : a = k <;> simp [Payload.removeKey, List.filter, hk]

/-- One unfolding step of get on a cons cell. -/
theorem Payload.get_cons (a : String) (b : Value) (rest : Payload) (k : String) :
    Payload.get ((a, b) :: rest) k = if a = k then some b else Payload.get rest k := rfl

/-- Removing one key leaves every other key's binding unchanged. -/
theorem Payload.removeKey_get_ne (p : Payload) (k k' : String) (h : k' ≠ k) :
    Payload.get (Payload.removeKey p k) k' = Payload.get p k' := by
  induction p with
  | nil => rfl
  | cons kv rest ih =>
    obtain ⟨a, b⟩ := kv
    rw [Payload.removeKey_cons, Payload.get_cons]
    by_cases hk : a = k
    · rw [if_pos hk]
      have h2 : ¬ a = k' := fun hc => h (hc.symm.trans hk)
      rw [if_neg h2]
      exact ih
    · rw [if_neg hk, Payload.get_cons]
      by_cases hk' : a = k'
      · rw [if_pos hk', if_pos hk']
      · rw [if_neg hk', if_neg hk']
        exact ih

/-- Removing a key removes it: lookup afterwards finds nothing. -/
theorem Payload.removeKey_get_self (p : Payload) (k : String) :
    Payload.get (Payload.removeKey p k) k = none := by
  induction p with
  | nil => rfl
  | cons kv rest ih =>
    obtain ⟨a, b⟩ := kv
    rw [Payload.removeKey_cons]
    by_cases hk : a = k
    · rw [if_pos hk]
      exact ih
    · rw [if_neg hk, Payload.get_cons, if_neg hk]
      exact ih

/-- The textual form of the abort raised on a zero-row insert matches none
of the five retry-heuristic substrings. -/
theorem matchesColumnHeuristic_abort500 : matchesColumnHeuristic abort500Text = false := by
  decide

/-- C1: for a validated payload containing photo_url, when the first insert
raises an error whose text matches the column heuristic, exactly one retry
is performed with photo_url removed (all other bindings untouched, in
order); the retried insert's first returned row becomes the created movie,
and any failure of the retry (a raise, or absent or empty data) yields
exactly the 500 response "Failed to create movie" with no further attempt. -/
theorem createMovie_photo_url_retry (db : Payload → DbResp) (p : Payload) (msg : String)
    (htitle : stripStr (titleOrEmpty p) ≠ "")
    (hphoto : photoUrlInvalid p = false)
    (hkey : Payload.hasKey p "photo_url" = true)
    (hfail : db p = DbResp.raise msg)
    (hmatch : matchesColumnHeuristic msg = true) :
    (createMovie GatewayOutcome.ok db p).2.insertAttempts
        = [p, Payload.removeKey p "photo_url"] ∧
    (createMovie GatewayOutcome.ok db p).1
        = (match db (Payload.removeKey p "photo_url") with
           | DbResp.result (some (row :: _)) => CreateResult.created row
           | _ => CreateResult.serverError "Failed to create movie") ∧
    Payload.get (Payload.removeKey p "photo_url") "photo_url" = none := by
  have hred : createMovie GatewayOutcome.ok db p
      = (match insertStep db (Payload.removeKey p "photo_url") with
         | Except.ok row =>
             (CreateResult.created row, ⟨true, [p, Payload.removeKey p "photo_url"]⟩)
         | Except.error _ =>
             (CreateResult.serverError "Failed to create movie",
               ⟨true, [p, Payload.removeKey p "photo_url"]⟩)) := by
    unfold createMovie
    rw [if_neg htitle, if_neg (by rw [hphoto]; exact Bool.false_ne_true)]
    simp only [insertStep, hfail, Exc.text, hkey, hmatch, Bool.and_self, if_true]
  refine ⟨?_, ?_, Payload.removeKey_get_self p "photo_url"⟩ <;>
    · rw [hred]
      rcases hsafe : db (Payload.removeKey p "photo_url") with m | data
      · simp [insertStep, hsafe]
      · rcases data with _ | ⟨_ | ⟨row, rest⟩⟩ <;> simp [insertStep, hsafe]

/-- Storage behaviour for the retry witness: the insert raises a
column-does-not-exist error whenever the payload still carries photo_url,
and succeeds once the key is gone. -/
def retryDb : Payload → DbResp := fun p =>
  if Payload.hasKey p "photo_url" then DbResp.raise "column photo_url does not exist"
  else DbResp.result (some [[("id", Value.vInt 1), ("title", Value.vStr "Dune")]])

/-- The create payload of the spec's concrete retry scenario. -/
def retryPayload : Payload :=
  [("title", Value.vStr "Dune"), ("photo_url", Value.vStr "http://x/y.jpg")]

/-- C1 witness: the retry scenario at the spec's concrete payload. -/
theorem createMovie_photo_url_retry_witness :
    (createMovie GatewayOutcome.ok retryDb retryPayload).2.insertAttempts
        = [retryPayload, Payload.removeKey retryPayload "photo_url"] ∧
    (createMovie GatewayOutcome.ok retryDb retryPayload).1
        = (match retryDb (Payload.removeKey retryPayload "photo_url") with
           | DbResp.result (some (row :: _)) => CreateResult.created row
           | _ => CreateResult.serverError "Failed to create movie") ∧
    Payload.get (Payload.removeKey retryPayload "photo_url") "photo_url" = none :=
  createMovie_photo_url_retry retryDb retryPayload "column photo_url does not exist"
    (by decide) (by decide) (by decide) (by decide) (by decide)

/-- C2: when the first insert raises and the fallback condition does not
hold — no photo_url key, or an error text matching no heuristic substring —
the handler answers 500 "Failed to create movie" after exactly one insert
attempt. -/
theorem createMovie_no_retry_on_unmatched_error (db : Payload → DbResp) (p : Payload)
    (msg : String)
    (htitle : stripStr (titleOrEmpty p) ≠ "")
    (hphoto : photoUrlInvalid p = false)
    (hfail : db p = DbResp.raise msg)
    (hcond : Payload.hasKey p "photo_url" = false ∨ matchesColumnHeuristic msg = false) :
    (createMovie GatewayOutcome.ok db p).1 = CreateResult.serverError "Failed to create movie" ∧
    (createMovie GatewayOutcome.ok db p).2.insertAttempts = [p] := by
  have hc : (Payload.hasKey p "photo_url" && matchesColumnHeuristic (Exc.text (Exc.dbRaise msg)))
      = false := by
    rcases hcond with h | h <;> simp [Exc.text, h]
  constructor <;>
    · unfold createMovie
      rw [if_neg htitle, if_neg (by rw [hphoto]; exact Bool.false_ne_true)]
      simp only [insertStep, hfail, hc, Bool.false_eq_true, if_false]

/-- C2 witness: the spec's no-retry scenario, a payload without photo_url
whose insert raises. -/
theorem createMovie_no_retry_witness :
    (createMovie GatewayOutcome.ok (fun _ => DbResp.raise "boom")
        [("title", Value.vStr "Dune")]).1 = CreateResult.serverError "Failed to create movie" ∧
    (createMovie GatewayOutcome.ok (fun _ => DbResp.raise "boom")
        [("title", Value.vStr "Dune")]).2.insertAttempts = [[("title", Value.vStr "Dune")]] :=
  createMovie_no_retry_on_unmatched_error (fun _ => DbResp.raise "boom")
    [("title", Value.vStr "Dune")] "boom" (by decide) (by decide) (by decide)
    (Or.inl (by decide))

/-- C3 counterexample: a validated payload (with photo_url) whose insert
reports success with zero rows. The client receives 500 "Failed to create
movie", not the specific no-data message: _insert's abort is an exception,
so the handler's except-Exception block catches it and replaces it. -/
theorem createMovie_no_data_counterexample :
    (createMovie GatewayOutcome.ok (fun _ => DbResp.result (some []))
        [("title", Value.vStr "Dune"), ("photo_url", Value.vStr "http://x/y.jpg")]).1
      = CreateResult.serverError "Failed to create movie" ∧
    (createMovie GatewayOutcome.ok (fun _ => DbResp.result (some []))
        [("title", Value.vStr "Dune"), ("photo_url", Value.vStr "http://x/y.jpg")]).1
      ≠ CreateResult.serverError "Insert failed: no data returned from Supabase" ∧
    strHasSub "Failed to create movie" "no data" = false :=
  ⟨by decide, by decide, by decide⟩

/-- C3 amended: when the insert reports success with zero rows (absent or
empty data), the no-data abort raised inside _insert is caught by the
handler's own exception block; since the caught exception's text matches no
heuristic substring there is no retry, and the caller receives 500 "Failed
to create movie" — the specific no-data error never reaches the caller. -/
theorem createMovie_no_data_amended (db : Payload → DbResp) (p : Payload)
    (htitle : stripStr (titleOrEmpty p) ≠ "")
    (hphoto : photoUrlInvalid p = false)
    (hnod : db p = DbResp.result (some []) ∨ db p = DbResp.result none) :
    (createMovie GatewayOutcome.ok db p).1 = CreateResult.serverError "Failed to create movie" ∧
    (createMovie GatewayOutcome.ok db p).2.insertAttempts = [p] := by
  have hstep : insertStep db p
      = Except.error (Exc.httpAbort 500 "Insert failed: no data returned from Supabase") := by
    rcases hnod with h | h <;> simp [insertStep, h]
  have hc : (Payload.hasKey p "photo_url"
      && matchesColumnHeuristic
           (Exc.text (Exc.httpAbort 500 "Insert failed: no data returned from Supabase")))
      = false := by
    simp [Exc.text, matchesColumnHeuristic_abort500]
  constructor <;>
    · unfold createMovie
      rw [if_neg htitle, if_neg (by rw [hphoto]; exact Bool.false_ne_true)]
      simp only [hstep, hc, Bool.false_eq_true, if_false]

/-- C3 amended witness: zero rows returned at a concrete validated payload
carrying photo_url. -/
theorem createMovie_no_data_amended_witness :
    (createMovie GatewayOutcome.ok (fun _ => DbResp.result (some []))
        [("title", Value.vStr "Dune"), ("photo_url", Value.vStr "http://x/y.jpg")]).1
      = CreateResult.serverError "Failed to create movie" ∧
    (createMovie GatewayOutcome.ok (fun _ => DbResp.result (some []))
        [("title", Value.vStr "Dune"), ("photo_url", Value.vStr "http://x/y.jpg")]).2.insertAttempts
      = [[("title", Value.vStr "Dune"), ("photo_url", Value.vStr "http://x/y.jpg")]] :=
  createMovie_no_data_amended (fun _ => DbResp.result (some []))
    [("title", Value.vStr "Dune"), ("photo_url", Value.vStr "http://x/y.jpg")]
    (by decide) (by decide) (Or.inl (by decide))

/-- C4: a payload whose title strips to empty — including an absent, null or
whitespace-only title — is answered with the 400 title message, and neither
the gateway handle nor any insert is touched, whatever the gateway and the
database would have done. -/
theorem createMovie_title_required (gw : GatewayOutcome) (db : Payload → DbResp) (p : Payload)
    (htitle : stripStr (titleOrEmpty p) = "") :
    createMovie gw db p
      = (CreateResult.clientError "Field 'title' is required and cannot be empty.",
          ⟨false, []⟩) := by
  unfold createMovie
  rw [if_pos htitle]

/-- C4 witness: a whitespace-only title, with a failing gateway and a
database that would answer — neither is consulted. -/
theorem createMovie_title_required_witness :
    createMovie (GatewayOutcome.fail "no config") (fun _ => DbResp.result (some []))
        [("title", Value.vStr "   "), ("year", Value.vInt 2020)]
      = (CreateResult.clientError "Field 'title' is required and cannot be empty.",
          ⟨false, []⟩) :=
  createMovie_title_required (GatewayOutcome.fail "no config") (fun _ => DbResp.result (some []))
    [("title", Value.vStr "   "), ("year", Value.vInt 2020)] (by decide)

/-- C5: with the gateway available, a fetch whose result payload is absent
or null yields the empty list, a fetch returning rows yields them, and a
raised fetch yields 500 "Failed to fetch movies"; in every case exactly one
fetch is attempted — no retry. -/
theorem listMovies_normalize_and_error (fdb : Nat → DbResp) :
    listMovies GatewayOutcome.ok fdb
      = ((match fdb 0 with
          | DbResp.raise _ => ListResult.serverError "Failed to fetch movies"
          | DbResp.result none => ListResult.rows []
          | DbResp.result (some data) => ListResult.rows data), 1) := by
  unfold listMovies
  rcases h : fdb 0 with m | (_ | d) <;> simp [h]

/-- C8: a validated-title payload whose photo_url is present, non-null and
not text is answered with the 400 photo_url message before the gateway or
the database is touched; and a present-but-null photo_url passes the
check. -/
theorem createMovie_photo_url_type_check (gw : GatewayOutcome) (db : Payload → DbResp)
    (p q : Payload)
    (htitle : stripStr (titleOrEmpty p) ≠ "")
    (hinv : photoUrlInvalid p = true)
    (hq : Payload.get q "photo_url" = some Value.vNull) :
    createMovie gw db p
      = (CreateResult.clientError "Field 'photo_url' must be a string if provided.",
          ⟨false, []⟩) ∧
    photoUrlInvalid q = false := by
  constructor
  · unfold createMovie
    rw [if_neg htitle, if_pos hinv]
  · simp [photoUrlInvalid, hq]

/-- C8 witness: an integer photo_url is rejected without touching storage;
a null photo_url passes the validator. -/
theorem createMovie_photo_url_type_check_witness :
    createMovie (GatewayOutcome.fail "no config") (fun _ => DbResp.result (some []))
        [("title", Value.vStr "Dune"), ("photo_url", Value.vInt 5)]
      = (CreateResult.clientError "Field 'photo_url' must be a string if provided.",
          ⟨false, []⟩) ∧
    photoUrlInvalid [("title", Value.vStr "Up"), ("photo_url", Value.vNull)] = false :=
  createMovie_photo_url_type_check (GatewayOutcome.fail "no config")
    (fun _ => DbResp.result (some []))
    [("title", Value.vStr "Dune"), ("photo_url", Value.vInt 5)]
    [("title", Value.vStr "Up"), ("photo_url", Value.vNull)]
    (by decide) (by decide) (by decide)

/-- C9 counterexample: the payload with title " Dune " passes validation and
its first insert attempt receives the payload still carrying the raw
" Dune " title, not the trimmed "Dune" the trimming produces. -/
theorem createMovie_trim_counterexample :
    (createMovie GatewayOutcome.ok (fun _ => DbResp.result (some [[("id", Value.vInt 1)]]))
        [("title", Value.vStr " Dune ")]).2.insertAttempts
      = [[("title", Value.vStr " Dune ")]] ∧
    stripStr " Dune " = "Dune" ∧
    Payload.get [("title", Value.vStr " Dune ")] "title" ≠ some (Value.vStr "Dune") :=
  ⟨by decide, by decide, by decide⟩

/-- C9 amended: the handler trims the title only to test it for emptiness;
once validation passes, the first insert attempt receives the original
payload unchanged, raw title included. -/
theorem createMovie_first_attempt_raw_payload (db : Payload → DbResp) (p : Payload)
    (htitle : stripStr (titleOrEmpty p) ≠ "")
    (hphoto : photoUrlInvalid p = false) :
    ((createMovie GatewayOutcome.ok db p).2.insertAttempts).head? = some p := by
  unfold createMovie
  rw [if_neg htitle, if_neg (by rw [hphoto]; exact Bool.false_ne_true)]
  rcases h : insertStep db p with e | row
  · simp only [h]
    by_cases hc : (Payload.hasKey p "photo_url" && matchesColumnHeuristic e.text) = true
    · rw [if_pos hc]
      rcases h2 : insertStep db (Payload.removeKey p "photo_url") with e2 | row2 <;> simp [h2]
    · rw [if_neg hc]
      rfl
  · simp [h]

/-- C9 amended witness: the raw-title payload is what the insert sees. -/
theorem createMovie_first_attempt_raw_payload_witness :
    ((createMovie GatewayOutcome.ok (fun _ => DbResp.result (some [[("id", Value.vInt 1)]]))
        [("title", Value.vStr " Dune ")]).2.insertAttempts).head?
      = some [("title", Value.vStr " Dune ")] :=
  createMovie_first_attempt_raw_payload (fun _ => DbResp.result (some [[("id", Value.vInt 1)]]))
    [("title", Value.vStr " Dune ")] (by decide) (by decide)

/-- C6: with the endpoint URL or the credential unset or empty,
_create_client answers a configuration error without invoking the
underlying constructor, and its message contains the name SUPABASE_URL
exactly when the URL is missing and SUPABASE_SERVICE_KEY exactly when the
credential is missing; the message is the same for any configuration with
the same missing-value pattern, so it never depends on the values
themselves. With both values set and a constructor that throws, the answer
is the initialization error instead. -/
theorem create_client_config_and_init_errors (cfg cfg2 : Config) (msg : String)
    (hsame1 : falsyStr cfg2.url = falsyStr cfg.url)
    (hsame2 : falsyStr cfg2.key = falsyStr cfg.key) :
    createClientFn cfg (CreateClientOutcome.raise msg)
      = (if falsyStr cfg.url || falsyStr cfg.key then
           (ClientResult.configError (configErrorMessage (missingKeys cfg)), false)
         else (ClientResult.initError "Failed to initialize Supabase client", true)) ∧
    strHasSub (configErrorMessage (missingKeys cfg)) "SUPABASE_URL" = falsyStr cfg.url ∧
    strHasSub (configErrorMessage (missingKeys cfg)) "SUPABASE_SERVICE_KEY" = falsyStr cfg.key ∧
    configErrorMessage (missingKeys cfg2) = configErrorMessage (missingKeys cfg) := by
  refine ⟨?_, ?_, ?_, ?_⟩
  · unfold createClientFn
    by_cases h : (falsyStr cfg.url || falsyStr cfg.key) = true
    · rw [if_pos h]
    · rw [if_neg h]
  · cases hu : falsyStr cfg.url <;> cases hk : falsyStr cfg.key <;>
      simp only [missingKeys, hu, hk, if_true, if_false] <;> decide
  · cases hu : falsyStr cfg.url <;> cases hk : falsyStr cfg.key <;>
      simp only [missingKeys, hu, hk, if_true, if_false] <;> decide
  · simp only [missingKeys, hsame1, hsame2]

/-- C6 witness: URL unset and credential empty for one configuration,
both empty strings for the other — same missing pattern, different raw
values, same message; the constructor is never consulted. -/
theorem create_client_config_and_init_errors_witness :
    createClientFn ⟨none, some ""⟩ (CreateClientOutcome.raise "bad url")
      = (if falsyStr (Config.mk none (some "")).url || falsyStr (Config.mk none (some "")).key then
           (ClientResult.configError (configErrorMessage (missingKeys ⟨none, some ""⟩)), false)
         else (ClientResult.initError "Failed to initialize Supabase client", true)) ∧
    strHasSub (configErrorMessage (missingKeys ⟨none, some ""⟩)) "SUPABASE_URL"
      = falsyStr (Config.mk none (some "")).url ∧
    strHasSub (configErrorMessage (missingKeys ⟨none, some ""⟩)) "SUPABASE_SERVICE_KEY"
      = falsyStr (Config.mk none (some "")).key ∧
    configErrorMessage (missingKeys ⟨some "", some ""⟩)
      = configErrorMessage (missingKeys ⟨none, some ""⟩) :=
  create_client_config_and_init_errors ⟨none, some ""⟩ ⟨some "", some ""⟩ "bad url"
    (by decide) (by decide)

/-- C7: once a get_supabase call has succeeded, the stored client is that
call's handle, and every later call — whatever the environment then holds
and whatever a fresh constructor would do — answers the very same handle
without invoking the constructor, leaving the state unchanged. -/
theorem get_supabase_singleton_after_success (s : Option Client) (cfg : Config)
    (con : CreateClientOutcome) (c : Client) (s' : Option Client) (inv : Bool)
    (calls : List (Config × CreateClientOutcome))
    (h : get_supabase s cfg con = (ClientResult.ok c, s', inv)) :
    s' = some c ∧
    (runGetSupabase s' calls).1 = calls.map (fun _ => (ClientResult.ok c, false)) ∧
    (runGetSupabase s' calls).2 = some c := by
  have hs : s' = some c := by
    rcases s with _ | c0
    · have hrw : get_supabase none cfg con
          = (match createClientFn cfg con with
             | (ClientResult.ok c, invoked) => (ClientResult.ok c, some c, invoked)
             | (ClientResult.configError m, invoked) => (ClientResult.configError m, none, invoked)
             | (ClientResult.initError m, invoked) => (ClientResult.initError m, none, invoked))
          := rfl
      rcases hc : createClientFn cfg con with ⟨r, b⟩
      rcases r with c1 | m1 | m1
      · rw [hrw, hc] at h
        injection h with h1 h2
        injection h1 with h1a
        injection h2 with h2a h2b
        rw [← h2a, h1a]
      · rw [hrw, hc] at h
        injection h with h1 h2
        injection h1
      · rw [hrw, hc] at h
        injection h with h1 h2
        injection h1
    · rw [show get_supabase (some c0) cfg con = (ClientResult.ok c0, some c0, false) from rfl] at h
      injection h with h1 h2
      injection h2 with h2a h2b
      injection h1 with h1a
      rw [← h2a, h1a]
  subst hs
  refine ⟨rfl, ?_, ?_⟩ <;>
    · induction calls with
      | nil => rfl
      | cons hd tl ih =>
        obtain ⟨cfg2, con2⟩ := hd
        simpa [runGetSupabase, get_supabase] using ih

/-- C7 witness: a first successful call stores handle 7; two later calls,
one with the environment gone and one whose constructor would fail, both
answer handle 7 without constructing. -/
theorem get_supabase_singleton_after_success_witness :
    (some 7 : Option Client) = some 7 ∧
    (runGetSupabase (some 7)
        [(⟨none, none⟩, CreateClientOutcome.ok 9),
         (⟨some "u", some "k"⟩, CreateClientOutcome.raise "down")]).1
      = List.map (fun _ => (ClientResult.ok 7, false))
          [((⟨none, none⟩ : Config), CreateClientOutcome.ok 9),
           (⟨some "u", some "k"⟩, CreateClientOutcome.raise "down")] ∧
    (runGetSupabase (some 7)
        [(⟨none, none⟩, CreateClientOutcome.ok 9),
         (⟨some "u", some "k"⟩, CreateClientOutcome.raise "down")]).2 = some 7 :=
  get_supabase_singleton_after_success none ⟨some "u", some "k"⟩ (CreateClientOutcome.ok 7)
    7 (some 7) true
    [(⟨none, none⟩, CreateClientOutcome.ok 9),
     (⟨some "u", some "k"⟩, CreateClientOutcome.raise "down")]
    (by decide)

/-- C10: a failing get_supabase call (missing configuration or a throwing
constructor) leaves the stored client unset, so the next call starts from
the same empty state; in particular a later call under a repaired
configuration constructs and returns a fresh handle rather than a cached
failure. -/
theorem get_supabase_error_leaves_state_unset (cfg : Config) (con : CreateClientOutcome)
    (m : String) (cfg2 : Config) (c2 : Client)
    (hfail : (get_supabase none cfg con).1 = ClientResult.configError m
      ∨ (get_supabase none cfg con).1 = ClientResult.initError m)
    (h2u : falsyStr cfg2.url = false)
    (h2k : falsyStr cfg2.key = false) :
    (get_supabase none cfg con).2.1 = none ∧
    get_supabase (get_supabase none cfg con).2.1 cfg2 (CreateClientOutcome.ok c2)
      = (ClientResult.ok c2, some c2, true) := by
  have hstate : (get_supabase none cfg con).2.1 = none := by
    rcases hc : createClientFn cfg con with ⟨r, b⟩
    have hrw : get_supabase none cfg con
        = (match createClientFn cfg con with
           | (ClientResult.ok c, invoked) => (ClientResult.ok c, some c, invoked)
           | (ClientResult.configError m, invoked) => (ClientResult.configError m, none, invoked)
           | (ClientResult.initError m, invoked) => (ClientResult.initError m, none, invoked))
        := rfl
    rcases r with c1 | m1 | m1
    · rw [hrw, hc] at hfail
      rcases hfail with h | h <;> exact absurd h (by simp)
    · rw [hrw, hc]
    · rw [hrw, hc]
  refine ⟨hstate, ?_⟩
  rw [hstate]
  have : createClientFn cfg2 (CreateClientOutcome.ok c2) = (ClientResult.ok c2, true) := by
    unfold createClientFn
    rw [if_neg (by rw [h2u, h2k]; exact Bool.false_ne_true)]
  rw [show get_supabase none cfg2 (CreateClientOutcome.ok c2)
      = (match createClientFn cfg2 (CreateClientOutcome.ok c2) with
         | (ClientResult.ok c, invoked) => (ClientResult.ok c, some c, invoked)
         | (ClientResult.configError m, invoked) => (ClientResult.configError m, none, invoked)
         | (ClientResult.initError m, invoked) => (ClientResult.initError m, none, invoked))
      from rfl, this]

/-- C10 witness: a call with the URL unset fails and stores nothing; the
next call with both values set constructs handle 5. -/
theorem get_supabase_error_leaves_state_unset_witness :
    (get_supabase none ⟨none, some "k"⟩ (CreateClientOutcome.ok 3)).2.1 = none ∧
    get_supabase (get_supabase none ⟨none, some "k"⟩ (CreateClientOutcome.ok 3)).2.1
        ⟨some "u", some "k"⟩ (CreateClientOutcome.ok 5)
      = (ClientResult.ok 5, some 5, true) :=
  get_supabase_error_leaves_state_unset ⟨none, some "k"⟩ (CreateClientOutcome.ok 3)
    (configErrorMessage ["SUPABASE_URL"]) ⟨some "u", some "k"⟩ 5
    (Or.inl (by decide)) (by decide) (by decide)

end MovieHub
